import Mathlib

/-!
# Verification of the library-lending backend

A shallow embedding of the lending lifecycle (src/routers/books.py) and the
recommendation engine (src/services/ai_service.py) of the backend repository,
together with proofs settling the frozen claims about the specification.

Modelling conventions:
* The remote store (Supabase) is modelled as an explicit `DB` value: a list of
  book rows and a list of checkout-history rows, in table order.  Each query
  of the source is translated to the corresponding filter/limit over those
  lists.
* Dates and timestamps are modelled as integers (day numbers); Python
  `timedelta(days=e)` addition and day differences become integer addition
  and subtraction.
* Python floats (the fixed scores 0.5/0.7/0.8/0.9, the 0.7 concentration
  threshold, count/10 popularity) are modelled as exact rationals, written
  with the computable constructor `mkRat`; bridge lemmas relate them to the
  literal forms (`mkRat 8 10 = 0.8` and so on).
* The JSON values produced by the Python stdlib call `json.loads` are
  modelled by the inductive `Json`; the parser itself (an external library
  call) is passed in as an oracle `jp : String → Option Json`, with `none`
  modelling a parse exception.
* The call `random.uniform` of the simulated-rating strategy is passed in as
  an explicit rating assignment `ratingFn : Book → ℚ`.
* Fallible endpoints return `Except ApiError (DB × response)`; raising an
  `HTTPException` before any write is modelled by an error result (no new
  `DB` is produced, the store is untouched).
-/

/-! ## Shallow embedding: data model and operations -/

/-- Book lifecycle states (`BookStatus` in src/models/book.py). -/
inductive BookStatus where
  | available
  | checked_out
  | reserved
  | maintenance
deriving DecidableEq, Repr

/-- Physical condition of a book (`BookCondition` in src/models/book.py). -/
inductive BookCondition where
  | excellent
  | good
  | fair
  | poor
deriving DecidableEq, Repr

/-- A row of the `books` table (fields of `BookResponse` in
src/models/book.py; `created_at`/`updated_at` audit columns are elided). -/
structure Book where
  id : String
  title : String
  author : String
  genre : String
  isbn : Option String := none
  publication_year : Option Int := none
  description : Option String := none
  publisher : Option String := none
  pages : Option Int := none
  language : String := "English"
  location : Option String := none
  condition : BookCondition := .good
  cover_image_url : Option String := none
  added_by : String
  status : BookStatus
  checked_out_by : Option String := none
  checked_out_at : Option Int := none
  due_date : Option Int := none
deriving DecidableEq, Repr

/-- A row of the `checkout_history` table. -/
structure CheckoutRecord where
  book_id : String
  user_id : String
  checked_out_at : Int
  due_date : Int
  returned_at : Option Int := none
  was_overdue : Option Bool := none
deriving DecidableEq, Repr

/-- The remote store: the two tables the core reads and writes. -/
structure DB where
  books : List Book
  history : List CheckoutRecord
deriving DecidableEq, Repr

/-- A JSON value, as returned by Python `json.loads`. -/
inductive Json where
  | null
  | bool (b : Bool)
  | num (q : ℚ)
  | str (s : String)
  | arr (elems : List Json)
  | obj (fields : List (String × Json))
deriving Repr

/-- A recommendation entry: the book/score/reason dict built throughout
src/services/ai_service.py.  The heuristic strategies
always store a numeric score and a string reason; the LLM parse path stores
whatever JSON values the model returned, so both fields are `Json`. -/
structure Recommendation where
  book : Book
  score : Json
  reason : Json

/-- Reading patterns produced by `_determine_reading_pattern`. -/
inductive ReadingPattern where
  | new_reader
  | genre_focused
  | diverse_reader
  | moderate_explorer
deriving DecidableEq, Repr

/-- The preference profile built by `_analyze_user_preferences`. -/
structure Preferences where
  preferred_genres : List String
  preferred_authors : List String
  total_books_read : Nat
  genre_diversity : Nat
  reading_pattern : ReadingPattern
deriving DecidableEq, Repr

/-- Error taxonomy of the boundary layer: 404 → `notFound`, the
illegal-transition/wrong-holder 400s → `invalidState`, the
delete-while-checked-out 400 → `conflict`, the empty-patch 400 →
`validation`, unexpected 500s → `internal`. -/
inductive ApiError where
  | notFound
  | invalidState
  | conflict
  | validation
  | internal
deriving DecidableEq, Repr

/-- Response model `CheckoutResponse` of src/models/book.py. -/
structure CheckoutResponse where
  book_id : String
  checked_out_by : String
  checked_out_at : Int
  due_date : Int
  success : Bool
  message : String
deriving DecidableEq, Repr

/-- Response model `CheckinResponse` of src/models/book.py. -/
structure CheckinResponse where
  book_id : String
  returned_at : Int
  was_overdue : Bool
  days_overdue : Option Int
  success : Bool
  message : String
deriving DecidableEq, Repr

/-- The ad-hoc response dict of the extend-checkout endpoint (the
human-readable date rendering of the message is elided). -/
structure ExtendResponse where
  book_id : String
  old_due_date : Int
  new_due_date : Int
  extended_days : Int
  success : Bool
  message : String
deriving DecidableEq, Repr

/-- Numeric content of a JSON value (scores built by the heuristic
strategies are always `Json.num`). -/
def Json.qnum : Json → Option ℚ
  | .num q => some q
  | _ => none

/-- Sort key used to rank recommendations: Python sorts the dicts by the
float score field; every score compared there is numeric. -/
def recScore (r : Recommendation) : ℚ := r.score.qnum.getD 0

/-- Stable descending sort by a rational key: the semantics of Python
`sorted(..., key=..., reverse=True)` / `list.sort(key=..., reverse=True)`
(Timsort is stable and `reverse=True` keeps equal elements in order). -/
def sortDescBy (key : α → ℚ) (l : List α) : List α :=
  l.insertionSort (fun a b => key b ≤ key a)

/-- Frequency tally preserving first-seen key order (a Python dict built by
`d[k] = d.get(k, 0) + 1`). -/
def bumpCount (k : String) : List (String × Nat) → List (String × Nat)
  | [] => [(k, 1)]
  | (k', n) :: rest => if k' = k then (k', n + 1) :: rest else (k', n) :: bumpCount k rest

/-- Tally of a list of keys, in first-seen order. -/
def tallyCounts (l : List String) : List (String × Nat) :=
  l.foldl (fun acc k => bumpCount k acc) []

/-- The static genre-affinity table `self.genre_similarities` of
`AILibraryService.__init__`, reproduced verbatim. -/
def genre_similarities : List (String × List String) :=
  [("Science Fiction", ["Fantasy", "Dystopian Fiction", "Technology"]),
   ("Fantasy", ["Science Fiction", "Adventure", "Young Adult"]),
   ("Mystery", ["Thriller", "Crime", "Psychological Thriller"]),
   ("Thriller", ["Mystery", "Crime", "Horror", "Psychological Thriller"]),
   ("Romance", ["Drama", "Contemporary Fiction", "Young Adult"]),
   ("Non-fiction", ["Biography", "History", "Science", "Philosophy", "Self-help"]),
   ("Biography", ["History", "Non-fiction", "Memoir"]),
   ("History", ["Biography", "Non-fiction", "Politics"]),
   ("Classic Literature", ["Fiction", "Drama", "Philosophy"]),
   ("Young Adult", ["Fantasy", "Romance", "Coming-of-age", "Adventure"]),
   ("Horror", ["Thriller", "Mystery", "Psychological Thriller"]),
   ("Business", ["Self-help", "Non-fiction", "Technology"]),
   ("Science", ["Non-fiction", "Technology", "Philosophy"]),
   ("Philosophy", ["Non-fiction", "Science", "Psychology"]),
   ("Psychology", ["Self-help", "Philosophy", "Non-fiction"]),
   ("Self-help", ["Psychology", "Business", "Non-fiction"]),
   ("Technology", ["Science", "Non-fiction", "Science Fiction"]),
   ("Crime", ["Mystery", "Thriller", "Psychological Thriller"]),
   ("Adventure", ["Fantasy", "Young Adult", "Action"]),
   ("Drama", ["Classic Literature", "Romance", "Fiction"]),
   ("Memoir", ["Biography", "Non-fiction", "History"]),
   ("Coming-of-age", ["Young Adult", "Fiction", "Drama"]),
   ("Dystopian Fiction", ["Science Fiction", "Thriller", "Philosophy"]),
   ("Psychological Thriller", ["Thriller", "Mystery", "Horror", "Crime"])]

/-- Lookup `self.genre_similarities.get(genre, [genre])`: unknown genres degrade to
self-similarity. -/
def simGenres (g : String) : List String :=
  (genre_similarities.lookup g).getD [g]

/-- Embeds `_determine_reading_pattern` of src/services/ai_service.py (the float
division `max_genre_count / total_books` is modelled as exact rational
division). -/
def determine_reading_pattern (genres : List (String × Nat)) (total_books : Nat) :
    ReadingPattern :=
  if total_books < 3 then .new_reader
  else
    let max_genre_count : Nat := (genres.map (·.2)).foldr Nat.max 0
    let genre_concentration : ℚ :=
      if 0 < total_books then mkRat max_genre_count total_books else 0
    if mkRat 7 10 < genre_concentration then .genre_focused
    else if 5 ≤ genres.length then .diverse_reader
    else .moderate_explorer

/-- Embeds `_analyze_user_preferences`: the input list models the checkout-history
rows joined (`books!inner`) with their book data. -/
def analyze_user_preferences (checkout_history : List (CheckoutRecord × Book)) :
    Preferences :=
  let genres := tallyCounts (checkout_history.map (·.2.genre))
  let authors := tallyCounts (checkout_history.map (·.2.author))
  { preferred_genres := ((sortDescBy (fun p => (p.2 : ℚ)) genres).take 3).map (·.1)
    preferred_authors := ((sortDescBy (fun p => (p.2 : ℚ)) authors).take 3).map (·.1)
    total_books_read := checkout_history.length
    genre_diversity := genres.length
    reading_pattern := determine_reading_pattern genres checkout_history.length }

/-- The `checkout_history` rows joined with their book (`books!inner(*)`):
rows whose book id matches no book row are dropped by the inner join. -/
def joinedHistory (db : DB) : List (CheckoutRecord × Book) :=
  db.history.filterMap fun r =>
    (db.books.find? (fun b => b.id == r.book_id)).map fun b => (r, b)

/-- The joined history of one user (`.eq("user_id", user_id)`). -/
def joined_history_for (db : DB) (uid : String) : List (CheckoutRecord × Book) :=
  joinedHistory { books := db.books, history := db.history.filter (fun r => r.user_id == uid) }

/-- Plain (un-joined) history book ids of a user: the `checked_out_book_ids`
exclusion list of `_get_recommendations_by_preferences`. -/
def userExcludeIds (db : DB) (uid : String) : List String :=
  (db.history.filter (fun r => r.user_id == uid)).map (·.book_id)

/-- Embeds `_get_books_by_genre`: available books of a genre, minus the exclusion
list, truncated by the query limit. -/
def get_books_by_genre (db : DB) (genre : String) (exclude_ids : List String)
    (lim : Nat) : List Book :=
  ((db.books.filter fun b =>
    b.genre == genre && b.status == BookStatus.available && !(exclude_ids.contains b.id))).take lim

/-- Embeds `_get_books_by_author`. -/
def get_books_by_author (db : DB) (author : String) (exclude_ids : List String)
    (lim : Nat) : List Book :=
  ((db.books.filter fun b =>
    b.author == author && b.status == BookStatus.available && !(exclude_ids.contains b.id))).take lim

/-- Embeds `_get_highly_rated_books_by_genre`: fetch a 2× pool, rank by the
simulated rating (`random.uniform`, passed in as `ratingFn`), keep the top
`lim`. -/
def get_highly_rated_books_by_genre (db : DB) (genre : String)
    (exclude_ids : List String) (lim : Nat) (ratingFn : Book → ℚ) : List Book :=
  (sortDescBy ratingFn (get_books_by_genre db genre exclude_ids (lim * 2))).take lim

/-- Strategy 1 of `_get_recommendations_by_preferences` (score 0.8): widen
each preferred genre through the affinity table, fetch up to `limit // 2`
available books per related genre. -/
def genreStrategyEntries (prefs : Preferences) (exclude_ids : List String)
    (lim : Nat) (db : DB) : List Recommendation :=
  prefs.preferred_genres.flatMap fun genre =>
    (simGenres genre).flatMap fun similar_genre =>
      (get_books_by_genre db similar_genre exclude_ids (lim / 2)).map fun b =>
        { book := b, score := .num (mkRat 8 10),
          reason := .str ("Similar to your interest in " ++ genre) }

/-- Strategy 2 (score 0.9): up to 2 available books per preferred author. -/
def authorStrategyEntries (prefs : Preferences) (exclude_ids : List String)
    (db : DB) : List Recommendation :=
  prefs.preferred_authors.flatMap fun author =>
    (get_books_by_author db author exclude_ids 2).map fun b =>
      { book := b, score := .num (mkRat 9 10), reason := .str ("Another book by " ++ author) }

/-- Strategy 3 (score 0.7): top-2 simulated-rating books per preferred
genre. -/
def ratingStrategyEntries (prefs : Preferences) (exclude_ids : List String)
    (db : DB) (ratingFn : Book → ℚ) : List Recommendation :=
  prefs.preferred_genres.flatMap fun genre =>
    (get_highly_rated_books_by_genre db genre exclude_ids 2 ratingFn).map fun b =>
      { book := b, score := .num (mkRat 7 10), reason := .str ("Highly rated " ++ genre ++ " book") }

/-- First-occurrence deduplication by book id (the `seen_books` set loop of
`_get_recommendations_by_preferences`). -/
def dedupGo (seen : List String) : List Recommendation → List Recommendation
  | [] => []
  | r :: rs =>
    if r.book.id ∈ seen then dedupGo seen rs
    else r :: dedupGo (r.book.id :: seen) rs

/-- Deduplicate keeping the first entry per book id. -/
def dedupById (l : List Recommendation) : List Recommendation := dedupGo [] l

/-- Increment the checkout count of a book id, or append it with count 1
(keeping the book data of the first occurrence, like the dict of the
source). -/
def bumpBook (bid : String) (b : Book) :
    List (String × Book × Nat) → List (String × Book × Nat)
  | [] => [(bid, b, 1)]
  | (k, bk, n) :: rest =>
    if k = bid then (k, bk, n + 1) :: rest else (k, bk, n) :: bumpBook bid b rest

/-- Count of checkouts per available book over the joined ledger, in
first-occurrence order. -/
def countAvailableCheckouts (l : List (CheckoutRecord × Book)) :
    List (String × Book × Nat) :=
  l.foldl (fun acc p =>
    if p.2.status == BookStatus.available then bumpBook p.1.book_id p.2 acc else acc) []

/-- Embeds `get_popular_recommendations`: empty joined ledger → `limit` available
books at score 0.5; otherwise rank available books by checkout count with
score `min(1.0, count/10)`. -/
def get_popular_recommendations (lim : Nat) (db : DB) : List Recommendation :=
  let checkout_counts := joinedHistory db
  if checkout_counts.isEmpty then
    ((db.books.filter fun b => b.status == BookStatus.available).take lim).map fun b =>
      { book := b, score := .num (mkRat 5 10), reason := .str "Popular in our library" }
  else
    let book_counts := countAvailableCheckouts checkout_counts
    ((sortDescBy (fun p => (p.2.2 : ℚ)) book_counts).take lim).map fun p =>
      { book := p.2.1, score := .num (min 1 (mkRat p.2.2 10)),
        reason := .str ("Popular book (" ++ toString p.2.2 ++ " checkouts)") }

/-- Embeds `_get_recommendations_by_preferences`: run the three strategies in
order, stopping at `limit` entries; pad with popular books when short;
deduplicate by book id (first occurrence wins); stable-sort by score
descending; truncate to `limit`. -/
def get_recommendations_by_preferences (prefs : Preferences) (uid : String)
    (lim : Nat) (db : DB) (ratingFn : Book → ℚ) : List Recommendation :=
  let exclude_ids := userExcludeIds db uid
  let candidates :=
    genreStrategyEntries prefs exclude_ids lim db ++
    authorStrategyEntries prefs exclude_ids db ++
    ratingStrategyEntries prefs exclude_ids db ratingFn
  let recommendations := candidates.take lim
  let recommendations :=
    if recommendations.length < lim then
      recommendations ++ get_popular_recommendations (lim - recommendations.length) db
    else recommendations
  (sortDescBy recScore (dedupById recommendations)).take lim

/-- Embeds `get_personalized_recommendations`: empty (joined) history delegates to
the popular strategy. -/
def get_personalized_recommendations (uid : String) (lim : Nat) (db : DB)
    (ratingFn : Book → ℚ) : List Recommendation :=
  let checkout_history := joined_history_for db uid
  if checkout_history.isEmpty then get_popular_recommendations lim db
  else
    get_recommendations_by_preferences (analyze_user_preferences checkout_history)
      uid lim db ratingFn

/-- Case-insensitive substring test over character lists (the semantics of a
SQL `ilike %q%` filter). -/
def listContainsSub (pat : List Char) : List Char → Bool
  | [] => pat.isEmpty
  | c :: rest => pat.isPrefixOf (c :: rest) || listContainsSub pat rest

/-- The filter `field ilike %q%`: case-insensitive substring match (both sides are
lowered character-wise, the character-list rendering of `String.toLower`). -/
def ilikeSub (field q : String) : Bool :=
  listContainsSub (q.toList.map Char.toLower) (field.toList.map Char.toLower)

/-- Embeds `_fallback_search_recommendations`: substring search over available
books (title/author/genre/description, score 0.7), padded with personalized
recommendations and truncated to `limit`.  A null description column never
matches. -/
def fallback_search_recommendations (search_query uid : String) (lim : Nat)
    (db : DB) (ratingFn : Book → ℚ) : List Recommendation :=
  let found := (db.books.filter fun b =>
    b.status == BookStatus.available &&
      (ilikeSub b.title search_query || ilikeSub b.author search_query ||
       ilikeSub b.genre search_query ||
       (b.description.map (fun d => ilikeSub d search_query)).getD false)).take lim
  let recommendations := found.map fun b =>
    { book := b, score := .num (mkRat 7 10),
      reason := .str ("Found based on your search for " ++ search_query) }
  let recommendations :=
    if recommendations.length < lim then
      recommendations ++ get_personalized_recommendations uid (lim - recommendations.length) db ratingFn
    else recommendations
  recommendations.take lim

/-- The Markdown code-fence stripping prologue of both parse helpers:
`response.strip()`, then `response[7:-3]` after a ```json fence or
`response[3:-3]` after a plain ``` fence. -/
def strip_code_fences (s : String) : String :=
  let s := s.trim
  if s.startsWith "```json" then ((s.drop 7).dropRight 3)
  else if s.startsWith "```" then ((s.drop 3).dropRight 3)
  else s

/-- The last book of the candidate list with a given id: the dict
comprehension `{book["id"]: book for book in available_books}` lets a later
row overwrite an earlier one with the same id. -/
def bookLookupById (books : List Book) (bid : String) : Option Book :=
  books.reverse.find? (fun b => b.id == bid)

/-- Handling of one parsed dict entry.  An entry whose `book_id` is
absent, a non-candidate string, or a hashable non-string (number, bool,
null: not a key of the lookup) is silently skipped (`.ok none`); an
unhashable `book_id` value (a JSON array or object) makes the membership
probe raise, which the enclosing handler turns into an empty overall result
(`.error`). -/
def parseEntry (books : List Book) (defaultReason : String)
    (fields : List (String × Json)) : Except Unit (Option Recommendation) :=
  match fields.lookup "book_id" with
  | some (.str bid) =>
    match bookLookupById books bid with
    | some b =>
      .ok (some { book := b, score := (fields.lookup "score").getD (.num (mkRat 8 10)),
                  reason := (fields.lookup "reason").getD (.str defaultReason) })
    | none => .ok none
  | some (.arr _) => .error ()
  | some (.obj _) => .error ()
  | _ => .ok none

/-- The parsing loop over the (at most five) sliced entries: the outer
`none` models an exception — a non-dict element (whose `rec.get` is
missing) or an unhashable `book_id` value — discarding everything. -/
def parseRecList (books : List Book) (defaultReason : String) :
    List Json → Option (List Recommendation)
  | [] => some []
  | .obj fields :: rest =>
    match parseEntry books defaultReason fields with
    | .error () => none
    | .ok entry =>
      (parseRecList books defaultReason rest).map fun rs =>
        match entry with
        | some r => r :: rs
        | none => rs
  | _ :: _ => none

/-- Shared body of the two OpenAI response parsers: strip code fences, run
`json.loads` (the oracle `jp`; `none` = parse exception → empty result),
require a JSON array (anything else raises inside the handler → empty
result), process at most the first 5 entries. -/
def parse_recommendations_core (jp : String → Option Json) (response : String)
    (available_books : List Book) (defaultReason : String) : List Recommendation :=
  match jp (strip_code_fences response) with
  | some (.arr elems) => (parseRecList available_books defaultReason (elems.take 5)).getD []
  | some (.str _) => []
  | some _ => []
  | none => []

/-- Embeds `_parse_search_recommendations`. -/
def parse_search_recommendations (jp : String → Option Json) (response : String)
    (available_books : List Book) : List Recommendation :=
  parse_recommendations_core jp response available_books
    "AI recommendation based on your search"

/-- Embeds `_parse_ai_recommendations`. -/
def parse_ai_recommendations (jp : String → Option Json) (response : String)
    (available_books : List Book) : List Recommendation :=
  parse_recommendations_core jp response available_books
    "AI recommendation based on your reading history"

/-- Embeds `get_ai_search_recommendations` of src/services/ai_service.py.
`openai_enabled` is the client-configured flag; `llm_response` is the result
of `_call_openai` (`none` models a transport error or absent client, and an
empty string is falsy in Python, so both fall back to the traditional
search). -/
def get_ai_search_recommendations (jp : String → Option Json)
    (openai_enabled : Bool) (llm_response : Option String)
    (search_query uid : String) (lim : Nat) (db : DB) (ratingFn : Book → ℚ) :
    List Recommendation :=
  if !openai_enabled then get_personalized_recommendations uid lim db ratingFn
  else
    let available_books := db.books.filter (fun b => b.status == BookStatus.available)
    if available_books.isEmpty then []
    else
      match llm_response with
      | some response =>
        if response ≠ "" then parse_search_recommendations jp response available_books
        else fallback_search_recommendations search_query uid lim db ratingFn
      | none => fallback_search_recommendations search_query uid lim db ratingFn

/-- The select `books.select("*").eq("id", book_id)` followed by taking the first row. -/
def findBook (db : DB) (bid : String) : Option Book :=
  db.books.find? (fun b => b.id == bid)

/-- Embeds `checkout_book` (POST /books/checkout). -/
def checkout_book (db : DB) (bid uid : String) (checkout_days : Int)
    (today : Int) : Except ApiError (DB × CheckoutResponse) :=
  match findBook db bid with
  | none => .error .notFound
  | some b =>
    if b.status ≠ BookStatus.available then .error .invalidState
    else
      let due_date := today + checkout_days
      let books' := db.books.map fun x =>
        if x.id == bid then
          { x with status := .checked_out, checked_out_by := some uid,
                   checked_out_at := some today, due_date := some due_date }
        else x
      if (db.books.filter (fun x => x.id == bid)).isEmpty then .error .internal
      else
        let history' := db.history ++
          [{ book_id := bid, user_id := uid, checked_out_at := today,
             due_date := due_date }]
        .ok ({ books := books', history := history' },
             { book_id := bid, checked_out_by := uid, checked_out_at := today,
               due_date := due_date, success := true,
               message := "Book checked out successfully. Due date: " ++ toString due_date })

/-- Embeds `checkin_book` (POST /books/checkin).  A checked-out row with
a null `due_date` would make `strptime` raise, surfacing as a 500
(`internal`); the §3 invariant rules that state out. -/
def checkin_book (db : DB) (bid uid : String) (today : Int) :
    Except ApiError (DB × CheckinResponse) :=
  match findBook db bid with
  | none => .error .notFound
  | some b =>
    if b.status ≠ BookStatus.checked_out ∨ b.checked_out_by ≠ some uid then
      .error .invalidState
    else
      match b.due_date with
      | none => .error .internal
      | some due_date =>
        let is_overdue : Bool := due_date < today
        let days_overdue : Option Int :=
          if due_date < today then some (today - due_date) else none
        let books' := db.books.map fun x =>
          if x.id == bid then
            { x with status := .available, checked_out_by := none,
                     checked_out_at := none, due_date := none }
          else x
        if (db.books.filter (fun x => x.id == bid)).isEmpty then .error .internal
        else
          let history' := db.history.map fun r =>
            if r.book_id == bid && r.user_id == uid && r.returned_at == none then
              { r with returned_at := some today, was_overdue := some is_overdue }
            else r
          .ok ({ books := books', history := history' },
               { book_id := bid, returned_at := today, was_overdue := is_overdue,
                 days_overdue := days_overdue, success := true,
                 message :=
                   if due_date < today then
                     "Book checked in successfully (was " ++
                       toString (today - due_date) ++ " days overdue)"
                   else "Book checked in successfully" })

/-- Embeds `extend_checkout` (POST /books/extend-checkout): renewal adds
`extend_days` to the stored due date. -/
def extend_checkout (db : DB) (bid uid : String) (extend_days : Int) :
    Except ApiError (DB × ExtendResponse) :=
  match findBook db bid with
  | none => .error .notFound
  | some b =>
    if b.status ≠ BookStatus.checked_out ∨ b.checked_out_by ≠ some uid then
      .error .invalidState
    else
      match b.due_date with
      | none => .error .internal
      | some current_due_date =>
        let new_due_date := current_due_date + extend_days
        let books' := db.books.map fun x =>
          if x.id == bid then { x with due_date := some new_due_date } else x
        if (db.books.filter (fun x => x.id == bid)).isEmpty then .error .internal
        else
          .ok ({ db with books := books' },
               { book_id := bid, old_due_date := current_due_date,
                 new_due_date := new_due_date, extended_days := extend_days,
                 success := true,
                 message := "Loan renewed for " ++ toString extend_days ++
                   " additional days" })

/-- Patch model `BookUpdate` of src/models/book.py: the optional patch fields of the
update endpoint. -/
structure BookUpdate where
  title : Option String := none
  author : Option String := none
  isbn : Option String := none
  genre : Option String := none
  publication_year : Option Int := none
  description : Option String := none
  publisher : Option String := none
  pages : Option Int := none
  language : Option String := none
  location : Option String := none
  condition : Option BookCondition := none
  cover_image_url : Option String := none
deriving DecidableEq, Repr

/-- True when the dict of non-null patch fields the source builds is
empty. -/
def BookUpdate.isEmptyPatch (u : BookUpdate) : Bool :=
  u.title == none && u.author == none && u.isbn == none && u.genre == none &&
  u.publication_year == none && u.description == none && u.publisher == none &&
  u.pages == none && u.language == none && u.location == none &&
  u.condition == none && u.cover_image_url == none

/-- Apply the non-null patch fields to a book row. -/
def applyPatch (u : BookUpdate) (b : Book) : Book :=
  { b with
    title := u.title.getD b.title
    author := u.author.getD b.author
    isbn := (u.isbn.map some).getD b.isbn
    genre := u.genre.getD b.genre
    publication_year := (u.publication_year.map some).getD b.publication_year
    description := (u.description.map some).getD b.description
    publisher := (u.publisher.map some).getD b.publisher
    pages := (u.pages.map some).getD b.pages
    language := u.language.getD b.language
    location := (u.location.map some).getD b.location
    condition := u.condition.getD b.condition
    cover_image_url := (u.cover_image_url.map some).getD b.cover_image_url }

/-- Embeds `update_book` (PUT /books): the ownership check is the
`.eq("id", book_id).eq("added_by", user_id)` select; a book added by someone
else is indistinguishable from a missing one (404). -/
def update_book (db : DB) (bid uid : String) (patch : BookUpdate) :
    Except ApiError (DB × Book) :=
  match db.books.filter (fun b => b.id == bid && b.added_by == uid) with
  | [] => .error .notFound
  | _ :: _ =>
    if patch.isEmptyPatch then .error .validation
    else
      let books' := db.books.map fun x => if x.id == bid then applyPatch patch x else x
      match books'.filter (fun x => x.id == bid) with
      | [] => .error .internal
      | b :: _ => .ok ({ db with books := books' }, b)

/-- Embeds `delete_book` (DELETE /books): same ownership-as-404 check,
then a conflict guard on checked-out books. -/
def delete_book (db : DB) (bid uid : String) :
    Except ApiError (DB × String) :=
  match db.books.filter (fun b => b.id == bid && b.added_by == uid) with
  | [] => .error .notFound
  | b :: _ =>
    if b.status == BookStatus.checked_out then .error .conflict
    else
      if (db.books.filter (fun x => x.id == bid)).isEmpty then .error .internal
      else
        .ok ({ db with books := db.books.filter (fun x => !(x.id == bid)) },
             "Book deleted successfully")

/-- The §3 Book invariant: `status = checked_out` iff the three loan fields
are all non-null. -/
def BookInv (b : Book) : Prop :=
  b.status = BookStatus.checked_out ↔
    (b.checked_out_by ≠ none ∧ b.checked_out_at ≠ none ∧ b.due_date ≠ none)

instance (b : Book) : Decidable (BookInv b) := by
  unfold BookInv; infer_instance

/-- The invariant over every row of the store. -/
def DBInv (db : DB) : Prop := ∀ b ∈ db.books, BookInv b

instance (db : DB) : Decidable (DBInv db) := by
  unfold DBInv; exact List.decidableBAll _ _

/-- A concrete history book of genre A / author P. -/
def bookGenreA : Book :=
  { id := "x", title := "X", author := "P", genre := "A",
    added_by := "lib", status := .available }

/-- A concrete history book of genre B / author Q. -/
def bookGenreB : Book :=
  { id := "y", title := "Y", author := "Q", genre := "B",
    added_by := "lib", status := .available }

/-- A ledger row for `bookGenreA`. -/
def recGenreA : CheckoutRecord :=
  { book_id := "x", user_id := "u", checked_out_at := 0, due_date := 14 }

/-- A ledger row for `bookGenreB`. -/
def recGenreB : CheckoutRecord :=
  { book_id := "y", user_id := "u", checked_out_at := 0, due_date := 14 }

/-- Ten joined history rows with genre frequencies A:5, B:5. -/
def histAB : List (CheckoutRecord × Book) :=
  List.replicate 5 (recGenreA, bookGenreA) ++ List.replicate 5 (recGenreB, bookGenreB)

/-- A store with one available book and an empty ledger. -/
def dbC7 : DB :=
  { books := [{ id := "only", title := "Only", author := "A", genre := "G",
                added_by := "lib", status := .available }],
    history := [] }

/-- A fixed model answer: four known candidate ids, one unknown id, and a
sixth entry beyond the 5-slice. -/
def jpC9 : String → Option Json := fun _ =>
  some (.arr
    [.obj [("book_id", .str "a"), ("score", .num (mkRat 9 10)), ("reason", .str "r1")],
     .obj [("book_id", .str "zz")],
     .obj [("book_id", .str "b")],
     .obj [("book_id", .str "c")],
     .obj [("book_id", .str "d")],
     .obj [("book_id", .str "e")]])

/-- Candidate books for the C9 witness. -/
def booksC9 : List Book :=
  ["a", "b", "c", "d", "e"].map fun i =>
    { id := i, title := i, author := "A", genre := "G",
      added_by := "lib", status := .available }

/-- A store holding one available science-fiction book matching the search
query, with an empty ledger. -/
def dbC2 : DB :=
  { books :=
      [{ id := "d1", title := "Dune", author := "Frank Herbert",
         genre := "Science Fiction", added_by := "lib", status := .available }],
    history := [] }

/-- The `json.loads` oracle on inputs where parsing raises (such as the
plain text fed to it here): no JSON value is produced. -/
def jpNone : String → Option Json := fun _ => none

/-- A concrete admissible simulated-rating assignment (4.0 lies in both
`uniform` ranges of `_get_highly_rated_books_by_genre`). -/
def ratingFour : Book → ℚ := fun _ => 4

/-- A store where book `b1` (genre Thriller, author A) qualifies under both
the genre strategy (via the Mystery → Thriller affinity edge of the user
history) and the author strategy (author A appears in the history). -/
def dbC1 : DB :=
  { books :=
      [{ id := "h1", title := "H1", author := "A", genre := "Mystery",
         added_by := "lib", status := .available },
       { id := "b1", title := "B1", author := "A", genre := "Thriller",
         added_by := "lib", status := .available }],
    history := [{ book_id := "h1", user_id := "u", checked_out_at := 0, due_date := 14 }] }

/-- The preference profile the personalized path derives on `dbC1`. -/
def prefsC1 : Preferences := analyze_user_preferences (joined_history_for dbC1 "u")

/-- The final personalized list on `dbC1` (through the preference-driven
path the claim theorem talks about). -/
def outC1 : List Recommendation :=
  get_recommendations_by_preferences prefsC1 "u" 5 dbC1 ratingFour

/-- The retained recommendation for `b1` on `dbC1`: the head of the final
list. -/
def recC1 : Recommendation :=
  match outC1 with
  | r :: _ => r
  | [] => { book := { id := "", title := "", author := "", genre := "",
                      added_by := "", status := .available },
            score := .null, reason := .null }

/-- A store with one available book and an empty ledger. -/
def dbC3 : DB :=
  { books := [{ id := "b1", title := "T", author := "A", genre := "G",
                added_by := "lib", status := .available }],
    history := [] }

/-- Checkout of `b1` by `u1` for 14 days on day 100. -/
def c3out : Except ApiError (DB × CheckoutResponse) :=
  checkout_book dbC3 "b1" "u1" 14 100

/-- The store after the checkout. -/
def dbC3' : DB :=
  match c3out with
  | .ok (d, _) => d
  | .error _ => { books := [], history := [] }

/-- The checkout response. -/
def respC3 : CheckoutResponse :=
  match c3out with
  | .ok (_, r) => r
  | .error _ => { book_id := "", checked_out_by := "", checked_out_at := 0,
                  due_date := 0, success := false, message := "" }

/-- Checkin of `b1` by `u1` on day 120 (six days past the due date 114). -/
def c3out2 : Except ApiError (DB × CheckinResponse) :=
  checkin_book dbC3' "b1" "u1" 120

/-- The store after the checkin. -/
def dbC3'' : DB :=
  match c3out2 with
  | .ok (d, _) => d
  | .error _ => { books := [], history := [] }

/-- The checkin response. -/
def respC4 : CheckinResponse :=
  match c3out2 with
  | .ok (_, r) => r
  | .error _ => { book_id := "", returned_at := 0, was_overdue := false,
                  days_overdue := none, success := false, message := "" }

/-- The stored row of `b1` after the checkout. -/
def bC3' : Book :=
  match findBook dbC3' "b1" with
  | some b => b
  | none => { id := "", title := "", author := "", genre := "",
              added_by := "", status := .available }

/-- Renewal of `b1` by 7 days from the checked-out state. -/
def c5out : Except ApiError (DB × ExtendResponse) :=
  extend_checkout dbC3' "b1" "u1" 7

/-- The store after the renewal. -/
def dbC5' : DB :=
  match c5out with
  | .ok (d, _) => d
  | .error _ => { books := [], history := [] }

/-- The renewal response. -/
def respC5 : ExtendResponse :=
  match c5out with
  | .ok (_, r) => r
  | .error _ => { book_id := "", old_due_date := 0, new_due_date := 0,
                  extended_days := 0, success := false, message := "" }

/-- A store whose only book was added by `owner`. -/
def dbC10 : DB :=
  { books := [{ id := "b1", title := "T", author := "A", genre := "G",
                added_by := "owner", status := .available }],
    history := [] }

/-- The stored row of `b1` in `dbC10`. -/
def bC10 : Book :=
  { id := "b1", title := "T", author := "A", genre := "G",
    added_by := "owner", status := .available }

/-- A non-empty patch for the C10 witness. -/
def patchC10 : BookUpdate := { title := some "New title" }

/-! ## Theorems settling the claims -/

/-- C3 (claim theorem). For every book, `status = checked_out` holds iff
`checked_out_by`, `checked_out_at` and `due_date` are all non-null
(`BookInv`), and the lending operations preserve this invariant across the
whole store: checkout sets the status and the three loan fields together,
checkin clears the three fields together with the status. -/
theorem C3_invariant_preserved :
    (∀ db bid uid days today db' resp, DBInv db →
      checkout_book db bid uid days today = .ok (db', resp) → DBInv db') ∧
    (∀ db bid uid today db' resp, DBInv db →
      checkin_book db bid uid today = .ok (db', resp) → DBInv db') := by
  constructor
  · intro db bid uid days today db' resp hinv h
    simp only [checkout_book] at h
    split at h
    · simp at h
    · split at h
      · simp at h
      · split at h
        · simp at h
        · rw [Except.ok.injEq, Prod.mk.injEq] at h
          obtain ⟨h1, -⟩ := h
          subst h1
          intro x hx
          simp only [List.mem_map] at hx
          obtain ⟨y, hy, rfl⟩ := hx
          by_cases hb : y.id == bid <;>
            simp only [hb, if_true, if_false, Bool.false_eq_true]
          · simp [BookInv]
          · exact hinv y hy
  · intro db bid uid today db' resp hinv h
    simp only [checkin_book] at h
    split at h
    · simp at h
    · split at h
      · simp at h
      · split at h
        · simp at h
        · split at h
          · simp at h
          · rw [Except.ok.injEq, Prod.mk.injEq] at h
            obtain ⟨h1, -⟩ := h
            subst h1
            intro x hx
            simp only [List.mem_map] at hx
            obtain ⟨y, hy, rfl⟩ := hx
            by_cases hb : y.id == bid <;>
              simp only [hb, if_true, if_false, Bool.false_eq_true]
            · simp [BookInv]
            · exact hinv y hy

/-- C4 (claim theorem). On a successful checkin, a return strictly after the
stored due date reports `was_overdue = true` with `days_overdue`
= (return date − due date) > 0; a return on or before the due date reports
`was_overdue = false` with `days_overdue` absent. -/
theorem C4_overdue_report :
    ∀ db bid uid today b d db' resp,
      findBook db bid = some b → b.due_date = some d →
      checkin_book db bid uid today = .ok (db', resp) →
      (d < today → resp.was_overdue = true ∧ resp.days_overdue = some (today - d) ∧
        0 < today - d) ∧
      (today ≤ d → resp.was_overdue = false ∧ resp.days_overdue = none) := by
  intro db bid uid today b d db' resp hfb hdue h
  simp only [checkin_book] at h
  rw [hfb] at h
  simp only [] at h
  split at h
  · simp at h
  · rw [hdue] at h
    simp only [] at h
    split at h
    · simp at h
    · rw [Except.ok.injEq, Prod.mk.injEq] at h
      obtain ⟨-, h2⟩ := h
      subst h2
      constructor
      · intro hlt
        refine ⟨by simp [hlt], by simp [hlt], by omega⟩
      · intro hle
        have hnlt : ¬ d < today := not_lt.mpr hle
        exact ⟨by simp [hnlt], by simp [hnlt]⟩

/-- C5 (claim theorem). A successful renewal adds `extend_days` to the
book's previous due date — both in the response and in every stored row of
that book — for every prior due date, including one already in the past
(no constraint relates `d` to the current day). -/
theorem C5_renewal_additive :
    ∀ db bid uid e b d db' resp,
      findBook db bid = some b → b.due_date = some d →
      extend_checkout db bid uid e = .ok (db', resp) →
      resp.old_due_date = d ∧ resp.new_due_date = d + e ∧
      ∀ x ∈ db'.books, x.id = bid → x.due_date = some (d + e) := by
  intro db bid uid e b d db' resp hfb hdue h
  simp only [extend_checkout] at h
  rw [hfb] at h
  simp only [] at h
  split at h
  · simp at h
  · rw [hdue] at h
    simp only [] at h
    split at h
    · simp at h
    · rw [Except.ok.injEq, Prod.mk.injEq] at h
      obtain ⟨h1, h2⟩ := h
      subst h1; subst h2
      refine ⟨rfl, rfl, ?_⟩
      intro x hx hid
      simp only [List.mem_map] at hx
      obtain ⟨y, hy, rfl⟩ := hx
      by_cases hb : y.id == bid
      · simp [hb]
      · exfalso
        rw [if_neg (by simpa using hb)] at hid
        exact (by simpa using hb : ¬ y.id = bid) hid

/-- C6 (claim theorem). Checkout on an existing non-available book fails
with `invalidState`; checkin and renewal fail with `invalidState` whenever
the existing book is not checked out or is held by a different user, and
with `notFound` when the book does not exist.  Each failing case returns an
`Except.error`, never a success payload. -/
theorem C6_error_paths :
    (∀ db bid uid days today b, findBook db bid = some b →
      b.status ≠ BookStatus.available →
      checkout_book db bid uid days today = .error .invalidState) ∧
    (∀ db bid uid today b, findBook db bid = some b →
      (b.status ≠ BookStatus.checked_out ∨ b.checked_out_by ≠ some uid) →
      checkin_book db bid uid today = .error .invalidState) ∧
    (∀ db bid uid e b, findBook db bid = some b →
      (b.status ≠ BookStatus.checked_out ∨ b.checked_out_by ≠ some uid) →
      extend_checkout db bid uid e = .error .invalidState) ∧
    (∀ db bid uid today, findBook db bid = none →
      checkin_book db bid uid today = .error .notFound) ∧
    (∀ db bid uid e, findBook db bid = none →
      extend_checkout db bid uid e = .error .notFound) := by
  refine ⟨?_, ?_, ?_, ?_, ?_⟩
  · intro db bid uid days today b hfb hstatus
    simp only [checkout_book]
    rw [hfb]
    simp only []
    rw [if_pos hstatus]
  · intro db bid uid today b hfb hbad
    simp only [checkin_book]
    rw [hfb]
    simp only []
    rw [if_pos hbad]
  · intro db bid uid e b hfb hbad
    simp only [extend_checkout]
    rw [hfb]
    simp only []
    rw [if_pos hbad]
  · intro db bid uid today hfb
    simp only [checkin_book]
    rw [hfb]
  · intro db bid uid e hfb
    simp only [extend_checkout]
    rw [hfb]

/-- C10 (claim theorem). Update and single-book delete are gated on
`added_by = caller`: a book that exists but was added by a different user
yields the same `notFound` failure as a missing book, for both operations
(no store value is produced, so the book is untouched), and a genuinely
missing book also yields `notFound` for both. -/
theorem C10_ownership_as_not_found :
    (∀ db bid uid patch b, findBook db bid = some b →
      (∀ x ∈ db.books, x.id = bid → x.added_by ≠ uid) →
      update_book db bid uid patch = .error .notFound ∧
      delete_book db bid uid = .error .notFound) ∧
    (∀ db bid uid patch, findBook db bid = none →
      update_book db bid uid patch = .error .notFound ∧
      delete_book db bid uid = .error .notFound) := by
  constructor
  · intro db bid uid patch b hfb hperm
    have hfil : db.books.filter (fun x => x.id == bid && x.added_by == uid) = [] := by
      rw [List.filter_eq_nil_iff]
      intro x hx
      simp only [Bool.and_eq_true, beq_iff_eq, not_and]
      intro hid
      simpa using hperm x hx hid
    constructor
    · simp only [update_book, hfil]
    · simp only [delete_book, hfil]
  · intro db bid uid patch hfb
    have hnone : ∀ x ∈ db.books, ¬ (x.id == bid) = true := by
      intro x hx
      exact List.find?_eq_none.mp hfb x hx
    have hfil : db.books.filter (fun x => x.id == bid && x.added_by == uid) = [] := by
      rw [List.filter_eq_nil_iff]
      intro x hx
      simp only [Bool.and_eq_true, not_and]
      intro hid
      exact absurd hid (hnone x hx)
    constructor
    · simp only [update_book, hfil]
    · simp only [delete_book, hfil]

/-- Bridge between the computable exact division `mkRat` used in the
embedding and the field division of ℚ. -/
theorem mkRat_natCast_div (a b : ℕ) : (mkRat (a : ℤ) b : ℚ) = (a : ℚ) / (b : ℚ) := by
  rw [Rat.mkRat_eq_div]
  norm_num

/-- The concentration threshold constant: `mkRat 7 10` is the float literal
`0.7`. -/
theorem mkRat_seven_tenths : (mkRat 7 10 : ℚ) = (0.7 : ℚ) := by
  norm_num [Rat.mkRat_eq_div]

/-- C8 (claim theorem). The derived reading pattern is `new_reader` below 3
books, else `genre_focused` when the top-genre concentration exceeds 0.7,
else `diverse_reader` at 5 or more distinct genres, else
`moderate_explorer`; frequencies {A:5, B:5} over 10 books give
`moderate_explorer` and {A:8} over 10 gives `genre_focused`. -/
theorem C8_reading_pattern :
    (∀ (genres : List (String × Nat)) (total : Nat), total < 3 →
      determine_reading_pattern genres total = .new_reader) ∧
    (∀ (genres : List (String × Nat)) (total : Nat), 3 ≤ total →
      (0.7 : ℚ) < (((genres.map (·.2)).foldr Nat.max 0 : ℕ) : ℚ) / (total : ℚ) →
      determine_reading_pattern genres total = .genre_focused) ∧
    (∀ (genres : List (String × Nat)) (total : Nat), 3 ≤ total →
      (((genres.map (·.2)).foldr Nat.max 0 : ℕ) : ℚ) / (total : ℚ) ≤ (0.7 : ℚ) →
      5 ≤ genres.length →
      determine_reading_pattern genres total = .diverse_reader) ∧
    (∀ (genres : List (String × Nat)) (total : Nat), 3 ≤ total →
      (((genres.map (·.2)).foldr Nat.max 0 : ℕ) : ℚ) / (total : ℚ) ≤ (0.7 : ℚ) →
      genres.length < 5 →
      determine_reading_pattern genres total = .moderate_explorer) ∧
    (analyze_user_preferences histAB).reading_pattern = .moderate_explorer ∧
    determine_reading_pattern [("A", 8)] 10 = .genre_focused := by
  refine ⟨?_, ?_, ?_, ?_, by decide, by decide⟩
  · intro genres total h
    simp only [determine_reading_pattern, if_pos h]
  · intro genres total h3 hconc
    simp only [determine_reading_pattern, if_neg (by omega : ¬ total < 3),
      if_pos (by omega : 0 < total)]
    rw [if_pos (by rw [mkRat_seven_tenths, mkRat_natCast_div]; exact hconc)]
  · intro genres total h3 hconc h5
    simp only [determine_reading_pattern, if_neg (by omega : ¬ total < 3),
      if_pos (by omega : 0 < total)]
    rw [if_neg (by rw [mkRat_seven_tenths, mkRat_natCast_div]; exact not_lt.mpr hconc),
      if_pos h5]
  · intro genres total h3 hconc h5
    simp only [determine_reading_pattern, if_neg (by omega : ¬ total < 3),
      if_pos (by omega : 0 < total)]
    rw [if_neg (by rw [mkRat_seven_tenths, mkRat_natCast_div]; exact not_lt.mpr hconc),
      if_neg (not_le.mpr h5)]

/-- Witness for C8: the genre-focused case applied at the concrete tally
{A:8} over 10 books. -/
theorem C8_witness :
    ((3 : ℕ) ≤ 10 ∧
      (0.7 : ℚ) < (((([("A", 8)] : List (String × Nat)).map (·.2)).foldr Nat.max 0 : ℕ) : ℚ) / ((10 : ℕ) : ℚ)) ∧
    determine_reading_pattern [("A", 8)] 10 = .genre_focused :=
  ⟨⟨by decide, by show (0.7 : ℚ) < ((8 : ℕ) : ℚ) / ((10 : ℕ) : ℚ); norm_num⟩,
    C8_reading_pattern.2.1 [("A", 8)] 10 (by decide)
      (by show (0.7 : ℚ) < ((8 : ℕ) : ℚ) / ((10 : ℕ) : ℚ); norm_num)⟩

/-- The popularity base score constant: `mkRat 5 10` is the float literal
`0.5`. -/
theorem mkRat_five_tenths : (mkRat 5 10 : ℚ) = (0.5 : ℚ) := by
  norm_num [Rat.mkRat_eq_div]

/-- C7 (amended claim theorem). On an empty checkout ledger, the popular
strategy returns the first `min limit #available` available books — exactly
`limit` of them only when at least `limit` available books exist — each
carrying score 0.5. -/
theorem C7_popular_empty_ledger :
    ∀ (lim : Nat) (db : DB), db.history = [] →
      (get_popular_recommendations lim db).length =
        min lim (db.books.filter (fun b => b.status == BookStatus.available)).length ∧
      ∀ r ∈ get_popular_recommendations lim db,
        r.score = Json.num (0.5 : ℚ) ∧ r.book.status = BookStatus.available := by
  intro lim db hhist
  have hjoined : joinedHistory db = [] := by
    simp [joinedHistory, hhist]
  constructor
  · simp [get_popular_recommendations, hjoined]
  · intro r hr
    simp only [get_popular_recommendations, hjoined, List.isEmpty_nil, if_pos,
      List.mem_map] at hr
    obtain ⟨b, hb, rfl⟩ := hr
    have hbf := List.mem_of_mem_take hb
    rw [List.mem_filter] at hbf
    refine ⟨by rw [← mkRat_five_tenths], by simpa using hbf.2⟩

/-- Counterexample to C7 as stated: with an empty ledger but only one
available book, a request for `limit = 2` popular recommendations returns 1
book, not exactly 2. -/
theorem C7_counterexample :
    dbC7.history = [] ∧
    (get_popular_recommendations 2 dbC7).length = 1 ∧ (1 : Nat) ≠ 2 := by
  refine ⟨rfl, ?_, by decide⟩
  decide

/-- Witness for C7: the amended theorem applied to `dbC7` at `limit = 1`,
where exactly `limit` books come back. -/
theorem C7_witness :
    dbC7.history = [] ∧
    ((get_popular_recommendations 1 dbC7).length =
      min 1 (dbC7.books.filter (fun b => b.status == BookStatus.available)).length ∧
      ∀ r ∈ get_popular_recommendations 1 dbC7,
        r.score = Json.num (0.5 : ℚ) ∧ r.book.status = BookStatus.available) :=
  ⟨rfl, C7_popular_empty_ledger 1 dbC7 rfl⟩

/-- A successfully parsed entry stores a candidate book. -/
theorem parseEntry_book_mem (books : List Book) (dr : String)
    (fields : List (String × Json)) (r : Recommendation)
    (h : parseEntry books dr fields = .ok (some r)) : r.book ∈ books := by
  unfold parseEntry at h
  split at h
  · rename_i bid _
    revert h
    split
    · rename_i b hb
      intro h
      obtain rfl : _ = r := Option.some.inj (Except.ok.inj h)
      have := List.mem_of_find?_eq_some hb
      simpa [bookLookupById, List.mem_reverse] using this
    · intro h
      simp at h
  · simp at h
  · simp at h
  · simp at h

/-- The parsing loop yields at most one entry per processed element. -/
theorem parseRecList_length (books : List Book) (dr : String) :
    ∀ (l : List Json) (rs : List Recommendation),
      parseRecList books dr l = some rs → rs.length ≤ l.length := by
  intro l
  induction l with
  | nil => intro rs h; obtain rfl := Option.some.inj h; simp
  | cons j rest ih =>
    intro rs h
    cases j with
    | obj fields =>
      simp only [parseRecList] at h
      split at h
      · simp at h
      · rw [Option.map_eq_some'] at h
        obtain ⟨rs', hrs', rfl⟩ := h
        have := ih rs' hrs'
        rename_i entry heq
        cases entry <;> simp <;> omega
    | null => cases h
    | bool b => cases h
    | num q => cases h
    | str s => cases h
    | arr xs => cases h

/-- Every entry produced by the parsing loop stores a candidate book. -/
theorem parseRecList_book_mem (books : List Book) (dr : String) :
    ∀ (l : List Json) (rs : List Recommendation) (r : Recommendation),
      parseRecList books dr l = some rs → r ∈ rs → r.book ∈ books := by
  intro l
  induction l with
  | nil =>
    intro rs r h hr
    obtain rfl := Option.some.inj h
    cases hr
  | cons j rest ih =>
    intro rs r h hr
    cases j with
    | obj fields =>
      simp only [parseRecList] at h
      split at h
      · simp at h
      · rw [Option.map_eq_some'] at h
        obtain ⟨rs', hrs', rfl⟩ := h
        rename_i entry heq
        cases entry with
        | none => exact ih rs' r hrs' hr
        | some r0 =>
          rcases List.mem_cons.mp hr with rfl | hr'
          · exact parseEntry_book_mem books dr fields r heq
          · exact ih rs' r hrs' hr'
    | null => cases h
    | bool b => cases h
    | num q => cases h
    | str s => cases h
    | arr xs => cases h

/-- Contract of the shared parser body: only candidate books, at most 5. -/
theorem parse_core_contract (jp : String → Option Json) (response : String)
    (books : List Book) (dr : String) :
    (parse_recommendations_core jp response books dr).length ≤ 5 ∧
    ∀ r ∈ parse_recommendations_core jp response books dr, r.book ∈ books := by
  unfold parse_recommendations_core
  split
  · rename_i elems heq
    cases hp : parseRecList books dr (elems.take 5) with
    | none => simp
    | some rs =>
      simp only [Option.getD_some]
      constructor
      · calc rs.length ≤ (elems.take 5).length := parseRecList_length books dr _ rs hp
          _ ≤ 5 := List.length_take_le 5 elems
      · intro r hr
        exact parseRecList_book_mem books dr _ rs r hp hr
  · simp
  · simp
  · simp

/-- C9 (claim theorem). For every model response text (any behaviour of the
`json.loads` oracle) and candidate book set, both parse helpers return only
entries whose `book_id` exactly matches a candidate book id — the stored
book is one of the candidates — and at most 5 entries regardless of the
requested limit (which is not even passed to them). -/
theorem C9_parse_contract :
    ∀ (jp : String → Option Json) (response : String) (books : List Book),
      ((parse_search_recommendations jp response books).length ≤ 5 ∧
        ∀ r ∈ parse_search_recommendations jp response books, r.book ∈ books) ∧
      ((parse_ai_recommendations jp response books).length ≤ 5 ∧
        ∀ r ∈ parse_ai_recommendations jp response books, r.book ∈ books) :=
  fun jp response books =>
    ⟨parse_core_contract jp response books "AI recommendation based on your search",
     parse_core_contract jp response books "AI recommendation based on your reading history"⟩

/-- Witness for C9: on the concrete oracle answer the parser keeps exactly
the four known ids among the first five entries, and the claim theorem
instantiates there. -/
theorem C9_witness :
    (parse_search_recommendations jpC9 "resp" booksC9).map (fun r => r.book.id) =
      ["a", "b", "c", "d"] ∧
    ((parse_search_recommendations jpC9 "resp" booksC9).length ≤ 5 ∧
      ∀ r ∈ parse_search_recommendations jpC9 "resp" booksC9, r.book ∈ booksC9) :=
  ⟨by decide, (C9_parse_contract jpC9 "resp" booksC9).1⟩

/-- C2 (amended claim theorem). With a configured client and a nonempty
available-book set, a malformed (non-JSON, nonempty) model response makes
the AI search entry point return the empty list — the parse failure is
swallowed inside the parser — while the direct-fallback equivalence holds
exactly when the client yields no response at all or an empty string (both
falsy in the source). -/
theorem C2_malformed_response :
    (∀ (jp : String → Option Json) (response search_query uid : String)
        (lim : Nat) (db : DB) (ratingFn : Book → ℚ),
      response ≠ "" →
      jp (strip_code_fences response) = none →
      db.books.filter (fun b => b.status == BookStatus.available) ≠ [] →
      get_ai_search_recommendations jp true (some response) search_query uid lim db ratingFn
        = []) ∧
    (∀ (jp : String → Option Json) (search_query uid : String) (lim : Nat)
        (db : DB) (ratingFn : Book → ℚ),
      db.books.filter (fun b => b.status == BookStatus.available) ≠ [] →
      get_ai_search_recommendations jp true none search_query uid lim db ratingFn =
        fallback_search_recommendations search_query uid lim db ratingFn ∧
      get_ai_search_recommendations jp true (some "") search_query uid lim db ratingFn =
        fallback_search_recommendations search_query uid lim db ratingFn) := by
  constructor
  · intro jp response search_query uid lim db ratingFn hne hparse hbooks
    simp only [get_ai_search_recommendations, Bool.not_true, Bool.false_eq_true, if_false,
      List.isEmpty_iff, hbooks, if_pos hne]
    simp only [parse_search_recommendations, parse_recommendations_core, hparse]
  · intro jp search_query uid lim db ratingFn hbooks
    constructor
    · simp only [get_ai_search_recommendations, Bool.not_true, Bool.false_eq_true, if_false,
        List.isEmpty_iff, hbooks]
    · simp only [get_ai_search_recommendations, Bool.not_true, Bool.false_eq_true, if_false,
        List.isEmpty_iff, hbooks, ne_eq, not_true_eq_false, if_neg, ite_false]

/-- Counterexample to C2 as stated: on `dbC2`, a malformed non-JSON model
response yields the empty list, while the non-AI fallback with identical
inputs returns two entries, so the two result sets differ. -/
theorem C2_counterexample :
    (get_ai_search_recommendations jpNone true (some "not json") "dune" "u" 5 dbC2
      ratingFour).length = 0 ∧
    (fallback_search_recommendations "dune" "u" 5 dbC2 ratingFour).map
      (fun r => r.book.id) = ["d1", "d1"] ∧
    get_ai_search_recommendations jpNone true (some "not json") "dune" "u" 5 dbC2
      ratingFour ≠
      fallback_search_recommendations "dune" "u" 5 dbC2 ratingFour := by
  refine ⟨by decide, by decide, ?_⟩
  intro h
  have h0 : (get_ai_search_recommendations jpNone true (some "not json") "dune" "u" 5 dbC2
      ratingFour).length = 0 := by decide
  have h2 : (fallback_search_recommendations "dune" "u" 5 dbC2 ratingFour).length = 2 := by
    decide
  rw [h, h2] at h0
  exact absurd h0 (by decide)

/-- Witness for C2: the amended theorem applied to the concrete store,
query and malformed response of the counterexample. -/
theorem C2_witness :
    ("not json" ≠ "" ∧ jpNone (strip_code_fences "not json") = none ∧
      dbC2.books.filter (fun b => b.status == BookStatus.available) ≠ []) ∧
    get_ai_search_recommendations jpNone true (some "not json") "dune" "u" 5 dbC2
      ratingFour = [] :=
  ⟨⟨by decide, rfl, by decide⟩,
    C2_malformed_response.1 jpNone "not json" "dune" "u" 5 dbC2 ratingFour
      (by decide) rfl (by decide)⟩

/-- The genre-strategy score constant: `mkRat 8 10` is the float literal
`0.8`. -/
theorem mkRat_eight_tenths : (mkRat 8 10 : ℚ) = (0.8 : ℚ) := by
  norm_num [Rat.mkRat_eq_div]

/-- The author-strategy score constant: `mkRat 9 10` is the float literal
`0.9`. -/
theorem mkRat_nine_tenths : (mkRat 9 10 : ℚ) = (0.9 : ℚ) := by
  norm_num [Rat.mkRat_eq_div]

/-- The popularity score of a single checkout: `mkRat 1 10` is `1/10`. -/
theorem mkRat_one_tenth : (mkRat 1 10 : ℚ) = (1 : ℚ) / 10 := by
  norm_num [Rat.mkRat_eq_div]

/-- Sorting permutes, so membership is preserved. -/
theorem mem_sortDescBy {α} (key : α → ℚ) (l : List α) (a : α) :
    a ∈ sortDescBy key l ↔ a ∈ l :=
  (List.perm_insertionSort _ l).mem_iff

/-- Deduplication only drops entries. -/
theorem dedupGo_subset :
    ∀ (l : List Recommendation) (seen : List String) (r : Recommendation),
      r ∈ dedupGo seen l → r ∈ l := by
  intro l
  induction l with
  | nil => intro seen r hr; simp [dedupGo] at hr
  | cons x xs ih =>
    intro seen r hr
    simp only [dedupGo] at hr
    split at hr
    · exact List.mem_cons_of_mem x (ih seen r hr)
    · rcases List.mem_cons.mp hr with rfl | hr'
      · exact List.mem_cons_self _ _
      · exact List.mem_cons_of_mem x (ih _ r hr')

/-- Once a book id is in the seen set, no later entry with that id is
emitted. -/
theorem dedupGo_ne_of_mem_seen (bid : String) :
    ∀ (l : List Recommendation) (seen : List String), bid ∈ seen →
      ∀ r ∈ dedupGo seen l, r.book.id ≠ bid := by
  intro l
  induction l with
  | nil => intro seen hmem r hr; simp [dedupGo] at hr
  | cons x xs ih =>
    intro seen hmem r hr
    simp only [dedupGo] at hr
    split at hr
    · exact ih seen hmem r hr
    · rcases List.mem_cons.mp hr with rfl | hr'
      · rename_i hx
        intro h
        exact hx (h ▸ hmem)
      · exact ih (x.book.id :: seen) (List.mem_cons_of_mem _ hmem) r hr'

/-- First-occurrence property of the deduplication: when a book id occurs
in the leading segment `X` of the input and every `X`-entry with that id
satisfies `P`, then every retained entry with that id satisfies `P` — the
retained entry is the first occurrence, which lies in `X`. -/
theorem dedupGo_first (P : Recommendation → Prop) (bid : String) :
    ∀ (X Y : List Recommendation) (seen : List String),
      bid ∉ seen →
      bid ∈ X.map (fun e => e.book.id) →
      (∀ e ∈ X, e.book.id = bid → P e) →
      ∀ r ∈ dedupGo seen (X ++ Y), r.book.id = bid → P r := by
  intro X
  induction X with
  | nil => intro Y seen h1 h2; simp at h2
  | cons x X' ih =>
    intro Y seen hseen hbid hP r hr hid
    simp only [List.cons_append, dedupGo] at hr
    by_cases hx : x.book.id ∈ seen
    · rw [if_pos hx] at hr
      have hne : ¬ x.book.id = bid := fun h => hseen (h ▸ hx)
      have hbid' : bid ∈ X'.map (fun e => e.book.id) := by
        rcases List.mem_map.mp hbid with ⟨e, he, heq⟩
        rcases List.mem_cons.mp he with rfl | he'
        · exact absurd heq hne
        · exact List.mem_map.mpr ⟨e, he', heq⟩
      exact ih Y seen hseen hbid' (fun e he => hP e (List.mem_cons_of_mem x he)) r hr hid
    · rw [if_neg hx] at hr
      rcases List.mem_cons.mp hr with rfl | hr'
      · exact hP r (List.mem_cons_self _ _) hid
      · by_cases hxb : x.book.id = bid
        · exact absurd hid (dedupGo_ne_of_mem_seen bid (X' ++ Y) (x.book.id :: seen)
            (by rw [hxb]; exact List.mem_cons_self _ _) r hr')
        · have hbid' : bid ∈ X'.map (fun e => e.book.id) := by
            rcases List.mem_map.mp hbid with ⟨e, he, heq⟩
            rcases List.mem_cons.mp he with rfl | he'
            · exact absurd heq hxb
            · exact List.mem_map.mpr ⟨e, he', heq⟩
          have hseen' : bid ∉ x.book.id :: seen := by
            intro hmem
            rcases List.mem_cons.mp hmem with h | h
            · exact hxb h.symm
            · exact hseen h
          exact ih Y (x.book.id :: seen) hseen' hbid'
            (fun e he => hP e (List.mem_cons_of_mem x he)) r hr' hid

/-- Every genre-strategy entry carries the score 0.8. -/
theorem genreStrategyEntries_score (prefs : Preferences) (excl : List String)
    (lim : Nat) (db : DB) :
    ∀ e ∈ genreStrategyEntries prefs excl lim db, e.score = Json.num (mkRat 8 10) := by
  intro e he
  simp only [genreStrategyEntries, List.mem_flatMap, List.mem_map] at he
  obtain ⟨g, -, sg, -, b, -, rfl⟩ := he
  rfl

/-- Merge/rank pipeline lemma: the candidate list opens with a segment `G`
whose entries all score 0.8; any retained recommendation for a book id that
occurs in `G` scores 0.8 — the dedup keeps the first occurrence, which lies
in `G`, in every branch of the padding conditional. -/
theorem first_segment_retained_score
    (G rest popPad : List Recommendation) (lim : Nat) (bid : String)
    (hGscore : ∀ e ∈ G, e.score = Json.num (mkRat 8 10))
    (hbid : bid ∈ G.map (fun e => e.book.id)) :
    ∀ r ∈ (sortDescBy recScore (dedupById
        (if ((G ++ rest).take lim).length < lim then
          (G ++ rest).take lim ++ popPad else (G ++ rest).take lim))).take lim,
      r.book.id = bid → r.score = Json.num (mkRat 8 10) := by
  intro r hr hid
  have hr1 := (mem_sortDescBy recScore _ r).mp (List.take_subset _ _ hr)
  by_cases hc : lim ≤ G.length
  · have htake : (G ++ rest).take lim = G.take lim := by
      rw [List.take_append_eq_append_take, Nat.sub_eq_zero_of_le hc, List.take_zero,
        List.append_nil]
    have hlen : ((G ++ rest).take lim).length = lim := by
      rw [htake, List.length_take]
      omega
    rw [if_neg (by omega : ¬ ((G ++ rest).take lim).length < lim), htake] at hr1
    simp only [dedupById] at hr1
    exact hGscore r (List.take_subset _ _ (dedupGo_subset _ _ r hr1))
  · push_neg at hc
    have htake : (G ++ rest).take lim = G ++ rest.take (lim - G.length) := by
      rw [List.take_append_eq_append_take, List.take_of_length_le (le_of_lt hc)]
    rw [htake] at hr1
    simp only [dedupById] at hr1
    split at hr1
    · rw [List.append_assoc] at hr1
      exact dedupGo_first _ bid G _ [] (List.not_mem_nil bid) hbid
        (fun e he _ => hGscore e he) r hr1 hid
    · exact dedupGo_first _ bid G _ [] (List.not_mem_nil bid) hbid
        (fun e he _ => hGscore e he) r hr1 hid

/-- C1 (amended claim theorem). In the ranked list of the personalized
path, a book that qualifies under both the author strategy and the genre
strategy is retained with the genre-strategy score 0.8, not the
author-strategy score 0.9: the genre entries are appended first and the
dedup keeps the first occurrence per book id. -/
theorem C1_dedup_retains_genre_score :
    ∀ (prefs : Preferences) (uid : String) (lim : Nat) (db : DB)
      (ratingFn : Book → ℚ) (bid : String) (r : Recommendation),
      bid ∈ (genreStrategyEntries prefs (userExcludeIds db uid) lim db).map
        (fun e => e.book.id) →
      bid ∈ (authorStrategyEntries prefs (userExcludeIds db uid) db).map
        (fun e => e.book.id) →
      r ∈ get_recommendations_by_preferences prefs uid lim db ratingFn →
      r.book.id = bid →
      r.score = Json.num (0.8 : ℚ) := by
  intro prefs uid lim db ratingFn bid r hbidG hbidA hr hid
  rw [← mkRat_eight_tenths]
  simp only [get_recommendations_by_preferences] at hr
  rw [List.append_assoc] at hr
  exact first_segment_retained_score _ _ _ lim bid
    (genreStrategyEntries_score prefs _ lim db) hbidG r hr hid

/-- Counterexample to C1 as stated: on `dbC1`, book `b1` qualifies under
both the author strategy and the genre strategy, yet the final ranked list
of the personalized path retains it with the genre-strategy score 0.8 — not
the author-strategy score 0.9. -/
theorem C1_counterexample :
    ("b1" ∈ (genreStrategyEntries prefsC1 (userExcludeIds dbC1 "u") 5 dbC1).map
        (fun e => e.book.id) ∧
      "b1" ∈ (authorStrategyEntries prefsC1 (userExcludeIds dbC1 "u") dbC1).map
        (fun e => e.book.id)) ∧
    (get_personalized_recommendations "u" 5 dbC1 ratingFour).map
      (fun r => (r.book.id, r.score.qnum)) =
      [("b1", some (0.8 : ℚ)), ("h1", some ((1 : ℚ) / 10))] ∧
    (0.8 : ℚ) ≠ (0.9 : ℚ) := by
  refine ⟨⟨by decide, by decide⟩, ?_, by norm_num⟩
  have h : (get_personalized_recommendations "u" 5 dbC1 ratingFour).map
      (fun r => (r.book.id, r.score.qnum)) =
      [("b1", some (mkRat 8 10)), ("h1", some (mkRat 1 10))] := by decide
  rw [h, mkRat_eight_tenths, mkRat_one_tenth]

/-- Witness for C1: the amended theorem applied to the concrete store
`dbC1`, book id `b1` and the head of the final list. -/
theorem C1_witness :
    (("b1" ∈ (genreStrategyEntries prefsC1 (userExcludeIds dbC1 "u") 5 dbC1).map
        (fun e => e.book.id) ∧
      "b1" ∈ (authorStrategyEntries prefsC1 (userExcludeIds dbC1 "u") dbC1).map
        (fun e => e.book.id)) ∧
      recC1 ∈ outC1 ∧ recC1.book.id = "b1") ∧
    recC1.score = Json.num (0.8 : ℚ) :=
  have hmem : recC1 ∈ outC1 := by
    rw [(rfl : outC1 = recC1 :: outC1.tail)]
    exact List.mem_cons_self _ _
  ⟨⟨⟨by decide, by decide⟩, hmem, by decide⟩,
    C1_dedup_retains_genre_score prefsC1 "u" 5 dbC1 ratingFour "b1" recC1
      (by decide) (by decide) hmem (by decide)⟩

/-- Witness for C3: the invariant holds initially and is preserved through
the concrete checkout and the concrete checkin. -/
theorem C3_witness : DBInv dbC3 ∧ DBInv dbC3' ∧ DBInv dbC3'' :=
  have h1 : DBInv dbC3 := by decide
  have h2 : DBInv dbC3' :=
    C3_invariant_preserved.1 dbC3 "b1" "u1" 14 100 dbC3' respC3 h1 rfl
  have h3 : DBInv dbC3'' :=
    C3_invariant_preserved.2 dbC3' "b1" "u1" 120 dbC3'' respC4 h2 rfl
  ⟨h1, h2, h3⟩

/-- Witness for C4: checking in 6 days late reports `was_overdue = true`
and `days_overdue = 6` (the end-to-end 14-day/20-day example of the spec). -/
theorem C4_witness :
    (findBook dbC3' "b1" = some bC3' ∧ bC3'.due_date = some 114 ∧
      checkin_book dbC3' "b1" "u1" 120 = .ok (dbC3'', respC4) ∧
      (114 : Int) < 120) ∧
    (respC4.was_overdue = true ∧ respC4.days_overdue = some ((120 : Int) - 114) ∧
      (0 : Int) < 120 - 114) :=
  ⟨⟨rfl, by decide, rfl, by decide⟩,
    (C4_overdue_report dbC3' "b1" "u1" 120 bC3' 114 dbC3'' respC4 rfl (by decide)
      rfl).1 (by decide)⟩

/-- Witness for C5: renewing by 7 days moves the due date from 114 to
114 + 7, in the response and in the store. -/
theorem C5_witness :
    (findBook dbC3' "b1" = some bC3' ∧ bC3'.due_date = some 114 ∧
      extend_checkout dbC3' "b1" "u1" 7 = .ok (dbC5', respC5)) ∧
    (respC5.old_due_date = 114 ∧ respC5.new_due_date = 114 + 7 ∧
      ∀ x ∈ dbC5'.books, x.id = "b1" → x.due_date = some (114 + 7)) :=
  ⟨⟨rfl, by decide, rfl⟩,
    C5_renewal_additive dbC3' "b1" "u1" 7 bC3' 114 dbC5' respC5 rfl (by decide) rfl⟩

/-- Witness for C6: checking out the already-checked-out `b1` fails with
`invalidState`; checking in a missing book fails with `notFound`. -/
theorem C6_witness :
    ((findBook dbC3' "b1" = some bC3' ∧ bC3'.status ≠ BookStatus.available) ∧
      checkout_book dbC3' "b1" "u2" 14 200 = .error .invalidState) ∧
    (findBook dbC3 "zz" = none ∧
      checkin_book dbC3 "zz" "u1" 0 = .error .notFound) :=
  ⟨⟨⟨rfl, by decide⟩,
      C6_error_paths.1 dbC3' "b1" "u2" 14 200 bC3' rfl (by decide)⟩,
    ⟨by decide, C6_error_paths.2.2.2.1 dbC3 "zz" "u1" 0 (by decide)⟩⟩

/-- Witness for C10: a caller who did not add `b1` gets `notFound` from
both update and delete. -/
theorem C10_witness :
    ((findBook dbC10 "b1" = some bC10 ∧
      ∀ x ∈ dbC10.books, x.id = "b1" → x.added_by ≠ "intruder") ∧
      (update_book dbC10 "b1" "intruder" patchC10 = .error .notFound ∧
        delete_book dbC10 "b1" "intruder" = .error .notFound)) :=
  ⟨⟨by decide, by decide⟩,
    C10_ownership_as_not_found.1 dbC10 "b1" "intruder" patchC10 bC10
      (by decide) (by decide)⟩
